import Mathlib

set_option maxHeartbeats 1600000

namespace HealthMonitor

/-!
Shallow embedding of `HealthMonitor-AI.py` (class `HealthMonitorAI`).

Python floats are modelled as exact rationals (`ℚ`); decimal literals of the
source (`0.5`, `0.3`, ...) are written as the equal fractions (`5/10`, ...).
Python's `round(x, 2)` is modelled as decimal rounding half to even
(banker's rounding), the decimal idealization of CPython's float `round`;
it is implemented on numerator/denominator so that it evaluates by `decide`.
-/

/-- Python's `round` to the nearest integer, ties to even (banker's rounding).
`f` is the floor of `q` and `r` the numerator of the fractional part, so the
comparisons `2*r < den` / `den < 2*r` decide whether the fraction is below or
above one half. -/
def roundHalfEven (q : ℚ) : Int :=
  let f : Int := Int.fdiv q.num (q.den : Int)
  let r : Int := q.num - f * (q.den : Int)
  if 2 * r < (q.den : Int) then f
  else if (q.den : Int) < 2 * r then f + 1
  else if f % 2 = 0 then f else f + 1

/-- Python's `round(x, 2)` on a (decimal-idealized) float. -/
def round2 (q : ℚ) : ℚ := mkRat (roundHalfEven (mkRat (q.num * 100) q.den)) 100

/-- A record carrying the six required fields at their enforced types
(the spec's Typed User Record). -/
structure TypedRecord where
  user_id : String
  current_steps : Int
  heart_rate : Int
  ambient_temperature : ℚ
  environmental_index : ℚ
  activity_intensity_factor : ℚ
deriving DecidableEq

/-- `calculate_metrics` step 2: heart-rate category (source lines 220-228). -/
def heart_rate_category (heart_rate : Int) : String :=
  if heart_rate < 60 then "Below Optimal"
  else if 60 ≤ heart_rate ∧ heart_rate ≤ 100 then "Optimal"
  else "Above Optimal"

/-- `calculate_metrics` step 3: environmental quality (source lines 230-238). -/
def environmental_quality (env_index : ℚ) : String :=
  if 75 ≤ env_index then "Good"
  else if 50 ≤ env_index then "Moderate"
  else "Poor"

/-- `calculate_metrics` step 4: ambient temperature impact (source lines 240-248). -/
def temperature_impact (temp : ℚ) : String :=
  if 15 ≤ temp ∧ temp ≤ 25 then "Ideal Temperature"
  else if temp < 15 then "Too Cold"
  else "Too Hot"

/-- The `heart_rate_factors` dict (source line 252); the catch-all case is
unreachable since the argument is always one of the three category names. -/
def heart_rate_factor : String → ℚ
  | "Optimal" => 1
  | "Below Optimal" => 8/10
  | "Above Optimal" => 7/10
  | _ => 0

/-- The `env_factors` dict (source line 253); catch-all unreachable. -/
def env_factor : String → ℚ
  | "Good" => 1
  | "Moderate" => 8/10
  | "Poor" => 6/10
  | _ => 0

/-- `predicted_activity` (source line 217), before rounding. -/
def predicted_activity (u : TypedRecord) : ℚ :=
  (u.current_steps : ℚ) * u.activity_intensity_factor

/-- `normalized_activity` (source line 259), before rounding. -/
def normalized_activity (u : TypedRecord) : ℚ :=
  (predicted_activity u / 10000) * (5/10)

/-- `heart_component` (source line 260), before rounding. -/
def heart_component (u : TypedRecord) : ℚ :=
  heart_rate_factor (heart_rate_category u.heart_rate) * (3/10)

/-- `env_component` (source line 261), before rounding. -/
def env_component (u : TypedRecord) : ℚ :=
  env_factor (environmental_quality u.environmental_index) * (2/10)

/-- `composite_score` (source line 263): sum of the unrounded components. -/
def composite_score (u : TypedRecord) : ℚ :=
  normalized_activity u + heart_component u + env_component u

/-- The `results["calculations"]` dict of `calculate_metrics`. -/
structure Calculations where
  predicted_activity : ℚ
  heart_rate_category : String
  environmental_quality : String
  temperature_impact : String
  normalized_activity : ℚ
  heart_component : ℚ
  env_component : ℚ
  composite_fitness_score : ℚ
  recommendation : String
  status : String
deriving DecidableEq

/-- `HealthMonitorAI.calculate_metrics` (source lines 201-282) on a record
whose six fields already carry their enforced types.  Note the final
recommendation (line 270) compares the *unrounded* `composite_score`. -/
def calculate_metrics (u : TypedRecord) : Calculations :=
  { predicted_activity := round2 (predicted_activity u),
    heart_rate_category := heart_rate_category u.heart_rate,
    environmental_quality := environmental_quality u.environmental_index,
    temperature_impact := temperature_impact u.ambient_temperature,
    normalized_activity := round2 (normalized_activity u),
    heart_component := round2 (heart_component u),
    env_component := round2 (env_component u),
    composite_fitness_score := round2 (composite_score u),
    recommendation :=
      if 75/100 ≤ composite_score u ∧ heart_rate_category u.heart_rate = "Optimal" ∧
          temperature_impact u.ambient_temperature = "Ideal Temperature" then
        "Continue current fitness plan"
      else "Adjust fitness plan",
    status :=
      if 75/100 ≤ composite_score u ∧ heart_rate_category u.heart_rate = "Optimal" ∧
          temperature_impact u.ambient_temperature = "Ideal Temperature" then
        "Optimal"
      else "Needs Adjustment" }

/-- The concrete record of the spec's scenario for C2. -/
def sampleU1 : TypedRecord := ⟨"U1", 10000, 70, 20, 80, 1⟩

/-- A record whose composite score is below the threshold, used as witness input. -/
def uAdjust : TypedRecord := ⟨"U2", 1000, 120, 30, 40, 1⟩

/-- Claim C1: `calculate_metrics` returns recommendation "Continue current
fitness plan" with status "Optimal" iff the composite score is ≥ 0.75 and the
heart-rate category is Optimal and the temperature impact is Ideal
Temperature; otherwise it returns "Adjust fitness plan" / "Needs Adjustment". -/
theorem claim_C1 (u : TypedRecord) :
    (((calculate_metrics u).recommendation = "Continue current fitness plan" ∧
        (calculate_metrics u).status = "Optimal") ↔
      (75/100 ≤ composite_score u ∧ heart_rate_category u.heart_rate = "Optimal" ∧
        temperature_impact u.ambient_temperature = "Ideal Temperature")) ∧
    (¬(75/100 ≤ composite_score u ∧ heart_rate_category u.heart_rate = "Optimal" ∧
        temperature_impact u.ambient_temperature = "Ideal Temperature") →
      ((calculate_metrics u).recommendation = "Adjust fitness plan" ∧
        (calculate_metrics u).status = "Needs Adjustment")) := by
  by_cases hc : 75/100 ≤ composite_score u ∧ heart_rate_category u.heart_rate = "Optimal" ∧
      temperature_impact u.ambient_temperature = "Ideal Temperature"
  · simp [calculate_metrics, hc]
  · simp [calculate_metrics, hc]

/-- Witness for C1 at a concrete record failing the threshold. -/
theorem claim_C1_witness :
    ¬(75/100 ≤ composite_score uAdjust ∧
        heart_rate_category uAdjust.heart_rate = "Optimal" ∧
        temperature_impact uAdjust.ambient_temperature = "Ideal Temperature") ∧
    ((calculate_metrics uAdjust).recommendation = "Adjust fitness plan" ∧
      (calculate_metrics uAdjust).status = "Needs Adjustment") := by
  have h : ¬(75/100 ≤ composite_score uAdjust ∧
      heart_rate_category uAdjust.heart_rate = "Optimal" ∧
      temperature_impact uAdjust.ambient_temperature = "Ideal Temperature") := by
    norm_num [composite_score, normalized_activity, heart_component, env_component,
      predicted_activity, uAdjust, heart_rate_category, environmental_quality,
      temperature_impact, heart_rate_factor, env_factor]
  exact ⟨h, (claim_C1 uAdjust).2 h⟩

/-- Claim C2: the composite-score pipeline computes
`normalized_activity = (predicted_activity / 10000) * 0.5`,
`heart_component = heart_rate_factor * 0.3`,
`env_component = env_factor * 0.2`, with the stated factor tables, each
component and the total rounded to 2 decimals independently; and the spec's
concrete record U1 yields exactly the stated values
(0.5, 0.3, 0.2, 1.0, "Continue current fitness plan", "Optimal"). -/
theorem claim_C2 :
    (∀ u : TypedRecord,
      predicted_activity u = (u.current_steps : ℚ) * u.activity_intensity_factor ∧
      (calculate_metrics u).predicted_activity = round2 (predicted_activity u) ∧
      (calculate_metrics u).normalized_activity =
        round2 ((predicted_activity u / 10000) * (5/10)) ∧
      (calculate_metrics u).heart_component =
        round2 (heart_rate_factor (heart_rate_category u.heart_rate) * (3/10)) ∧
      (calculate_metrics u).env_component =
        round2 (env_factor (environmental_quality u.environmental_index) * (2/10)) ∧
      (calculate_metrics u).composite_fitness_score =
        round2 ((predicted_activity u / 10000) * (5/10) +
          heart_rate_factor (heart_rate_category u.heart_rate) * (3/10) +
          env_factor (environmental_quality u.environmental_index) * (2/10))) ∧
    (heart_rate_factor "Optimal" = 1 ∧ heart_rate_factor "Below Optimal" = 8/10 ∧
      heart_rate_factor "Above Optimal" = 7/10) ∧
    (env_factor "Good" = 1 ∧ env_factor "Moderate" = 8/10 ∧ env_factor "Poor" = 6/10) ∧
    ((calculate_metrics sampleU1).predicted_activity = 10000 ∧
      (calculate_metrics sampleU1).normalized_activity = 5/10 ∧
      (calculate_metrics sampleU1).heart_component = 3/10 ∧
      (calculate_metrics sampleU1).env_component = 2/10 ∧
      (calculate_metrics sampleU1).composite_fitness_score = 1 ∧
      (calculate_metrics sampleU1).recommendation = "Continue current fitness plan" ∧
      (calculate_metrics sampleU1).status = "Optimal") := by
  have catH : heart_rate_category sampleU1.heart_rate = "Optimal" := by decide
  have catE : environmental_quality sampleU1.environmental_index = "Good" := by decide
  have catT : temperature_impact sampleU1.ambient_temperature = "Ideal Temperature" := by
    decide
  have hp : predicted_activity sampleU1 = mkRat 10000 1 := by
    rw [Rat.mkRat_eq_div]
    norm_num [predicted_activity, sampleU1]
  have hn : normalized_activity sampleU1 = mkRat 1 2 := by
    rw [Rat.mkRat_eq_div]
    norm_num [normalized_activity, predicted_activity, sampleU1]
  have hh : heart_component sampleU1 = mkRat 3 10 := by
    rw [Rat.mkRat_eq_div, heart_component, catH]
    norm_num [heart_rate_factor]
  have he : env_component sampleU1 = mkRat 2 10 := by
    rw [Rat.mkRat_eq_div, env_component, catE]
    norm_num [env_factor]
  have hc : composite_score sampleU1 = mkRat 1 1 := by
    rw [Rat.mkRat_eq_div, composite_score, hn, hh, he]
    rw [Rat.mkRat_eq_div, Rat.mkRat_eq_div, Rat.mkRat_eq_div]
    norm_num
  have hcond : 75/100 ≤ composite_score sampleU1 ∧
      heart_rate_category sampleU1.heart_rate = "Optimal" ∧
      temperature_impact sampleU1.ambient_temperature = "Ideal Temperature" := by
    refine ⟨?_, catH, catT⟩
    rw [hc, Rat.mkRat_eq_div]
    norm_num
  refine ⟨fun u => ⟨rfl, rfl, rfl, rfl, rfl, rfl⟩, ⟨rfl, rfl, rfl⟩, ⟨rfl, rfl, rfl⟩,
    ?_, ?_, ?_, ?_, ?_, ?_, ?_⟩
  · show round2 (predicted_activity sampleU1) = 10000
    rw [hp, show (10000 : ℚ) = mkRat 10000 1 from by rw [Rat.mkRat_eq_div]; norm_num]
    decide
  · show round2 (normalized_activity sampleU1) = 5/10
    rw [hn, show (5 : ℚ)/10 = mkRat 1 2 from by rw [Rat.mkRat_eq_div]; norm_num]
    decide
  · show round2 (heart_component sampleU1) = 3/10
    rw [hh, show (3 : ℚ)/10 = mkRat 3 10 from by rw [Rat.mkRat_eq_div]; norm_num]
    decide
  · show round2 (env_component sampleU1) = 2/10
    rw [he, show (2 : ℚ)/10 = mkRat 2 10 from by rw [Rat.mkRat_eq_div]; norm_num]
    decide
  · show round2 (composite_score sampleU1) = 1
    rw [hc, show (1 : ℚ) = mkRat 1 1 from by rw [Rat.mkRat_eq_div]; norm_num]
    decide
  · show (calculate_metrics sampleU1).recommendation = "Continue current fitness plan"
    simp [calculate_metrics, hcond]
  · show (calculate_metrics sampleU1).status = "Optimal"
    simp [calculate_metrics, hcond]

/-- Claim C3: the three classifiers used by `calculate_metrics` sit exactly at
the stated boundaries: heart rate 60 and 100 are Optimal, 101 Above Optimal,
below 60 Below Optimal; environmental index 75 is Good, 74.999 Moderate,
below 50 Poor; temperature 15..25 inclusive is Ideal, 25.01 Too Hot,
below 15 Too Cold. -/
theorem claim_C3 :
    (∀ u : TypedRecord,
      (calculate_metrics u).heart_rate_category = heart_rate_category u.heart_rate ∧
      (calculate_metrics u).environmental_quality =
        environmental_quality u.environmental_index ∧
      (calculate_metrics u).temperature_impact =
        temperature_impact u.ambient_temperature) ∧
    (∀ h : Int, h < 60 → heart_rate_category h = "Below Optimal") ∧
    heart_rate_category 60 = "Optimal" ∧
    heart_rate_category 100 = "Optimal" ∧
    heart_rate_category 101 = "Above Optimal" ∧
    environmental_quality 75 = "Good" ∧
    environmental_quality (74999/1000) = "Moderate" ∧
    (∀ e : ℚ, e < 50 → environmental_quality e = "Poor") ∧
    (∀ t : ℚ, 15 ≤ t → t ≤ 25 → temperature_impact t = "Ideal Temperature") ∧
    temperature_impact 25 = "Ideal Temperature" ∧
    temperature_impact (2501/100) = "Too Hot" ∧
    (∀ t : ℚ, t < 15 → temperature_impact t = "Too Cold") := by
  refine ⟨fun u => ⟨rfl, rfl, rfl⟩, ?_, by decide, by decide, by decide, by decide,
    ?_, ?_, ?_, by decide, ?_, ?_⟩
  · intro h hh
    simp [heart_rate_category, hh]
  · norm_num [environmental_quality]
  · intro e he
    have h1 : ¬(75 ≤ e) := by linarith
    have h2 : ¬(50 ≤ e) := by linarith
    simp [environmental_quality, h1, h2]
  · intro t h1 h2
    simp [temperature_impact, h1, h2]
  · norm_num [temperature_impact]
  · intro t ht
    have h1 : ¬(15 ≤ t) := by linarith
    simp [temperature_impact, h1, ht]

/-- Witness for C3: the below-60 rule applied at 59. -/
theorem claim_C3_witness :
    (59 : Int) < 60 ∧ heart_rate_category 59 = "Below Optimal" :=
  ⟨by decide, claim_C3.2.1 59 (by decide)⟩

/-!
### Dynamic (duck-typed) model

Python values reaching the pipeline are strings, ints or floats; a record is
a Python dict from field names to such values.  Operations that can raise
(`TypeError`, `ValueError`, `KeyError`, `ZeroDivisionError`) return `Option`,
`none` meaning an exception.
-/

/-- A Python value as it occurs in this program: `str`, `int` or `float`. -/
inductive Value where
  | str : String → Value
  | int : Int → Value
  | num : ℚ → Value
deriving DecidableEq

/-- A Python dict from field names to values (association list; construction
via `dictInsert` keeps keys unique and models dict assignment). -/
abbrev Record := List (String × Value)

/-- Dict read access `r[f]` / the `f in r` test (first binding wins; bindings
built by `dictInsert` are unique). -/
def lookupField : Record → String → Option Value
  | [], _ => none
  | p :: r, f => if p.1 = f then some p.2 else lookupField r f

/-- Python dict assignment `r[k] = v`: updates the binding in place if the
key exists, appends otherwise. -/
def dictInsert (r : Record) (k : String) (v : Value) : Record :=
  if r.any (fun p => p.1 == k) then
    r.map (fun p => if p.1 = k then (k, v) else p)
  else r ++ [(k, v)]

/-!
Python's `str` methods (`strip`, `startswith`, `in`, `split`) and numeric
conversions are modelled on the character list of the string by structural
recursion, so that they evaluate on concrete inputs.
-/

/-- Python `s.strip()`: drop surrounding whitespace. -/
def pyStrip (s : String) : String :=
  String.mk (((s.data.dropWhile Char.isWhitespace).reverse.dropWhile
    Char.isWhitespace).reverse)

/-- Python `s.startswith(c)` for a one-character prefix. -/
def strStartsWithChar (c : Char) (s : String) : Bool :=
  match s.data with
  | [] => false
  | ch :: _ => ch == c

/-- Python `c in s` for a character. -/
def strContainsChar (c : Char) (s : String) : Bool :=
  s.data.contains c

/-- Split a character list at every occurrence of `c`, keeping empty pieces
(the semantics of Python `s.split(c)` with an explicit separator). -/
def splitChar (c : Char) : List Char → List (List Char)
  | [] => [[]]
  | ch :: rest =>
    let r := splitChar c rest
    if ch == c then [] :: r
    else
      match r with
      | [] => [[ch]]
      | h :: t => (ch :: h) :: t

/-- Python `s.split(c)`. -/
def strSplitOnChar (c : Char) (s : String) : List String :=
  (splitChar c s.data).map String.mk

/-- Numeric value of a digit string. -/
def digitsVal (l : List Char) : Nat :=
  l.foldl (fun n c => n * 10 + (c.toNat - 48)) 0

/-- Python `int(s)` on a string: optional sign then digits, surrounding
whitespace allowed (underscore separators and other exotic forms are not
modelled; no claim exercises them). -/
def pyIntOfString (s : String) : Option Int :=
  match (pyStrip s).data with
  | [] => none
  | '-' :: rest =>
    if rest ≠ [] ∧ rest.all Char.isDigit then some (-(digitsVal rest : Int)) else none
  | '+' :: rest =>
    if rest ≠ [] ∧ rest.all Char.isDigit then some ((digitsVal rest : Int)) else none
  | l =>
    if l.all Char.isDigit then some ((digitsVal l : Int)) else none

/-- Unsigned part of Python `float(s)`: `digits`, `digits.`, `.digits` or
`digits.digits` (exponents and `inf`/`nan` literals are not modelled; no
claim exercises them). -/
def pyFloatCore (t : List Char) : Option ℚ :=
  match splitChar '.' t with
  | [a] =>
    if a ≠ [] ∧ a.all Char.isDigit then some (mkRat (digitsVal a) 1) else none
  | [a, b] =>
    if (a ≠ [] ∨ b ≠ []) ∧ a.all Char.isDigit ∧ b.all Char.isDigit then
      some (mkRat (digitsVal a * 10 ^ b.length + digitsVal b) (10 ^ b.length))
    else none
  | _ => none

/-- Python `float(s)` on a string. -/
def pyFloatOfString (s : String) : Option ℚ :=
  match (pyStrip s).data with
  | '-' :: rest => (pyFloatCore rest).map (fun q => -q)
  | '+' :: rest => pyFloatCore rest
  | l => pyFloatCore l

/-- Python `int(x)` truncates a float toward zero. -/
def pyTrunc (q : ℚ) : Int := q.num / (q.den : Int)

/-- Python `int(x)` on a value; `none` is a `ValueError`/`TypeError`. -/
def pyInt : Value → Option Int
  | .int n => some n
  | .num q => some (pyTrunc q)
  | .str s => pyIntOfString s

/-- Python `float(x)` on a value; `none` is a `ValueError`/`TypeError`. -/
def pyFloat : Value → Option ℚ
  | .int n => some ((n : ℚ))
  | .num q => some q
  | .str s => pyFloatOfString s

/-- `self.required_fields` (source lines 22-26). -/
def required_fields : List String :=
  ["user_id", "current_steps", "heart_rate", "ambient_temperature",
    "environmental_index", "activity_intensity_factor"]

/-- The missing-fields error string (source line 63). -/
def missingMsg (missing : List String) (row : Nat) : String :=
  "ERROR: Missing required field(s): " ++ String.intercalate ", " missing ++
    " in row " ++ toString row ++ "."

/-- The invalid-fields error string (source line 105). -/
def invalidMsg (invalid : List String) (row : Nat) : String :=
  "ERROR: Invalid value for the field(s): " ++ String.intercalate ", " invalid ++
    " in row " ++ toString row ++ ". Please correct and resubmit."

/-- The `missing_fields` list collected for one record (source lines 57-60). -/
def missingFields (r : Record) : List String :=
  required_fields.filter (fun f => (lookupField r f).isNone)

/-- `not isinstance(record["user_id"], str)` (source line 68).  The `none`
case cannot occur at the call site: the missing-fields check ran first. -/
def userIdInvalid (r : Record) : Bool :=
  match lookupField r "user_id" with
  | some (Value.str _) => false
  | _ => true

/-- `int(record[f])` failing or yielding a non-positive value
(source lines 71-83, for `current_steps` and `heart_rate`). -/
def posIntFieldInvalid (r : Record) (f : String) : Bool :=
  match lookupField r f with
  | none => true
  | some v =>
    match pyInt v with
    | none => true
    | some n => decide (n ≤ 0)

/-- `float(record["ambient_temperature"])` failing (source lines 85-88);
only convertibility is checked, no range. -/
def tempFieldInvalid (r : Record) : Bool :=
  match lookupField r "ambient_temperature" with
  | none => true
  | some v => (pyFloat v).isNone

/-- `float(record["environmental_index"])` failing or out of [0, 100]
(source lines 90-95). -/
def envFieldInvalid (r : Record) : Bool :=
  match lookupField r "environmental_index" with
  | none => true
  | some v =>
    match pyFloat v with
    | none => true
    | some q => decide (q < 0) || decide (100 < q)

/-- `float(record["activity_intensity_factor"])` failing or non-positive
(source lines 97-102). -/
def intensityFieldInvalid (r : Record) : Bool :=
  match lookupField r "activity_intensity_factor" with
  | none => true
  | some v =>
    match pyFloat v with
    | none => true
    | some q => decide (q ≤ 0)

/-- The `invalid_fields` list collected for one record, in source order
(source lines 67-102). -/
def invalidFields (r : Record) : List String :=
  (if userIdInvalid r then ["user_id"] else []) ++
  (if posIntFieldInvalid r "current_steps" then ["current_steps"] else []) ++
  (if posIntFieldInvalid r "heart_rate" then ["heart_rate"] else []) ++
  (if tempFieldInvalid r then ["ambient_temperature"] else []) ++
  (if envFieldInvalid r then ["environmental_index"] else []) ++
  (if intensityFieldInvalid r then ["activity_intensity_factor"] else [])

/-- Error strings contributed by one record: the missing-fields message (and
`continue`, skipping the value checks), or the invalid-fields message, or
nothing (source lines 52-106). -/
def recordErrors (row_num : Nat) (r : Record) : List String :=
  if missingFields r ≠ [] then [missingMsg (missingFields r) row_num]
  else if invalidFields r ≠ [] then [invalidMsg (invalidFields r) row_num]
  else []

/-- The `for i, record in enumerate(data)` loop accumulating
`validation_results["errors"]`, with 1-based row numbers (source line 52). -/
def collectErrors : Nat → List Record → List String
  | _, [] => []
  | row, r :: rest => recordErrors row r ++ collectErrors (row + 1) rest

/-- The `validation_results` dict (source lines 41-45). -/
structure ValidationResults where
  num_users : Nat
  fields_check : List (String × String)
  errors : List String
deriving DecidableEq

/-- The batch-wide presence table (source lines 109-113). -/
def fieldsCheck (data : List Record) : List (String × String) :=
  required_fields.map (fun f =>
    (f, if data.all (fun r => (lookupField r f).isSome) then "present" else "missing"))

/-- The part of the validation report before the summary section
(source lines 125-135). -/
def reportHeader (vr : ValidationResults) : String :=
  "# Data Validation Report\n" ++
  "## Data Structure Check:\n" ++
  "- Number of users: " ++ toString vr.num_users ++ "\n" ++
  "- Number of fields per record: " ++ toString required_fields.length ++ "\n\n" ++
  "## Required Fields Check:\n" ++
  String.join (vr.fields_check.map (fun p =>
    "- " ++ p.1 ++ ": " ++ (if p.2 = "present" then "valid" else "invalid") ++ "\n")) ++
  "\n## Validation Summary:\n"

/-- `HealthMonitorAI._generate_validation_report` (source lines 123-142). -/
def validationReport (vr : ValidationResults) : String :=
  reportHeader vr ++
  (if vr.errors = [] then
    "Data validation is successful! Would you like to proceed with analysis or provide another dataset?"
  else
    String.join (vr.errors.map (fun e => "- " ++ e ++ "\n")))

/-- `HealthMonitorAI.validate_data` (source lines 28-121), returning
(passed, report, details). -/
def validate_data (data : List Record) : Bool × String × ValidationResults :=
  if data.length = 0 then
    (false, "ERROR: No data provided.",
      { num_users := data.length, fields_check := [], errors := [] })
  else
    let errors := collectErrors 1 data
    let results : ValidationResults :=
      { num_users := data.length, fields_check := fieldsCheck data, errors := errors }
    (errors.isEmpty, validationReport results, results)

/-- Opportunistic `record[field] = int(record[field])` of the CSV branch
(source lines 179-184). -/
def coerceIntField (record : Record) (f : String) : Record :=
  match lookupField record f with
  | none => record
  | some v =>
    match pyInt v with
    | some n => dictInsert record f (.int n)
    | none => record

/-- Opportunistic `record[field] = float(record[field])` of the CSV branch
(source lines 186-191). -/
def coerceFloatField (record : Record) (f : String) : Record :=
  match lookupField record f with
  | none => record
  | some v =>
    match pyFloat v with
    | some q => dictInsert record f (.num q)
    | none => record

/-- Both coercion loops of the CSV branch (source lines 178-191). -/
def coerceNumericFields (record : Record) : Record :=
  let r1 := (["current_steps", "heart_rate"]).foldl coerceIntField record
  (["ambient_temperature", "environmental_index", "activity_intensity_factor"]).foldl
    coerceFloatField r1

/-- The dict comprehension `{headers[j]: csv_data[i][j] for j in ...}`
(source line 176). -/
def buildRecord (headers : List String) (row : List String) : Record :=
  (headers.zip row).foldl (fun r p => dictInsert r p.1 (.str p.2)) []

/-- The CSV branch of `parse_input_data` after `csv.reader` has split the
text into rows of fields (source lines 165-195). -/
def parse_rows (csv_data : List (List String)) : List Record :=
  match csv_data with
  | [] => []
  | [_] => []
  | header :: rows =>
    let headers := header.map pyStrip
    rows.filterMap (fun row =>
      if row.length = headers.length then
        some (coerceNumericFields (buildRecord headers row))
      else none)

/-- `csv.reader` on the raw text, modelled for unquoted fields: split into
lines, each line split on commas. -/
def splitCSV (s : String) : List (List String) :=
  (strSplitOnChar '\n' s).map (strSplitOnChar ',')

/-- `HealthMonitorAI.parse_input_data` (source lines 144-199).  The JSON
branch (`json.loads` plus the `users`-key extraction, source lines 158-162)
is an external-library call abstracted as the `jsonParse` parameter;
`jsonParse t = none` models a parse exception, which the surrounding
`try/except` turns into an empty list. -/
def parse_input_data (jsonParse : String → Option (List Record)) (data_str : String) :
    List Record :=
  let t := pyStrip data_str
  if strStartsWithChar '\x7b' t then
    match jsonParse t with
    | some users => users
    | none => []
  else if strContainsChar ',' t then
    parse_rows (splitCSV t)
  else []

/-- `True` iff the value is a Python number (int or float). -/
def vIsNum : Value → Bool
  | .str _ => false
  | _ => true

/-- Numeric content of a value, if any. -/
def toQ : Value → Option ℚ
  | .int n => some ((n : ℚ))
  | .num q => some q
  | .str _ => none

/-- Python `s * n` string repetition. -/
def strRepeat (s : String) (n : Int) : String :=
  String.join (List.replicate n.toNat s)

/-- Python `*` on values: numbers multiply, `str * int` repeats, `str`
with a float is a `TypeError` (`none`). -/
def vMul : Value → Value → Option Value
  | .int a, .int b => some (.int (a * b))
  | .int a, .num b => some (.num ((a : ℚ) * b))
  | .num a, .int b => some (.num (a * (b : ℚ)))
  | .num a, .num b => some (.num (a * b))
  | .str s, .int n => some (.str (strRepeat s n))
  | .int n, .str s => some (.str (strRepeat s n))
  | _, _ => none

/-- Python `+` on values. -/
def vAdd : Value → Value → Option Value
  | .int a, .int b => some (.int (a + b))
  | .int a, .num b => some (.num ((a : ℚ) + b))
  | .num a, .int b => some (.num (a + (b : ℚ)))
  | .num a, .num b => some (.num (a + b))
  | .str a, .str b => some (.str (a ++ b))
  | _, _ => none

/-- Python `/` (true division) on values: always a float; division by zero
or a string operand is an exception. -/
def vDiv (x y : Value) : Option Value := do
  let a ← toQ x
  let b ← toQ y
  if b = 0 then none else some (.num (a / b))

/-- Python `<` on values.  Every comparison in `calculate_metrics` has a
number on one side, for which a string operand is a `TypeError`. -/
def vLt (x y : Value) : Option Bool := do
  let a ← toQ x
  let b ← toQ y
  pure (decide (a < b))

/-- Python `<=` on values. -/
def vLe (x y : Value) : Option Bool := do
  let a ← toQ x
  let b ← toQ y
  pure (decide (a ≤ b))

/-- Python `round(x, 2)`: identity on ints, decimal rounding on floats,
`TypeError` on strings. -/
def vRound2 : Value → Option Value
  | .int n => some (.int n)
  | .num q => some (.num (round2 q))
  | .str _ => none

/-- Heart-rate categorization on a dynamic value (source lines 220-228,
including the chained comparison `60 <= heart_rate <= 100`). -/
def hrCategoryV (heart_rate : Value) : Option String := do
  let lt60 ← vLt heart_rate (.int 60)
  if lt60 then pure "Below Optimal"
  else do
    let ge60 ← vLe (.int 60) heart_rate
    let chain ← if ge60 then vLe heart_rate (.int 100) else pure false
    pure (if chain then "Optimal" else "Above Optimal")

/-- Environmental-quality categorization on a dynamic value
(source lines 230-238). -/
def envQualityV (env_index : Value) : Option String := do
  let ge75 ← vLe (.int 75) env_index
  if ge75 then pure "Good"
  else do
    let ge50 ← vLe (.int 50) env_index
    pure (if ge50 then "Moderate" else "Poor")

/-- Temperature-impact categorization on a dynamic value
(source lines 240-248). -/
def tempImpactV (temp : Value) : Option String := do
  let ge15 ← vLe (.int 15) temp
  let chain ← if ge15 then vLe temp (.int 25) else pure false
  if chain then pure "Ideal Temperature"
  else do
    let lt15 ← vLt temp (.int 15)
    pure (if lt15 then "Too Cold" else "Too Hot")

/-- The `heart_rate_factors` dict lookup (source lines 252, 255); a key
outside the dict would be a `KeyError`. -/
def heart_rate_factorsV : String → Option Value
  | "Optimal" => some (.int 1)
  | "Below Optimal" => some (.num (8/10))
  | "Above Optimal" => some (.num (7/10))
  | _ => none

/-- The `env_factors` dict lookup (source lines 253, 256). -/
def env_factorsV : String → Option Value
  | "Good" => some (.int 1)
  | "Moderate" => some (.num (8/10))
  | "Poor" => some (.num (6/10))
  | _ => none

/-- The `results` dict of `calculate_metrics` in the dynamic model. -/
structure MetricsV where
  input_data : Record
  predicted_activity : Value
  heart_rate_category : String
  environmental_quality : String
  temperature_impact : String
  normalized_activity : Value
  heart_component : Value
  env_component : Value
  composite_fitness_score : Value
  recommendation : String
  status : String
deriving DecidableEq

/-- Step 1 of `calculate_metrics` (source lines 216-218): fetch the operands
and compute `predicted_activity`, unrounded and rounded. -/
def cmPredicted (user_data : Record) : Option (Value × Value) := do
  let steps ← lookupField user_data "current_steps"
  let intensity ← lookupField user_data "activity_intensity_factor"
  let predicted ← vMul steps intensity
  let predictedR ← vRound2 predicted
  pure (predicted, predictedR)

/-- Steps 2-4 of `calculate_metrics` (source lines 220-248): the three
category strings. -/
def cmCategories (user_data : Record) : Option (String × String × String) := do
  let heart_rate ← lookupField user_data "heart_rate"
  let hrCat ← hrCategoryV heart_rate
  let env_index ← lookupField user_data "environmental_index"
  let envQual ← envQualityV env_index
  let temp ← lookupField user_data "ambient_temperature"
  let tImpact ← tempImpactV temp
  pure (hrCat, envQual, tImpact)

/-- Step 5 of `calculate_metrics` (source lines 258-263): the unrounded
components and composite score. -/
def cmComponents (predicted hrFactor eFactor : Value) :
    Option (Value × Value × Value × Value) := do
  let na0 ← vDiv predicted (.int 10000)
  let normalized ← vMul na0 (.num (5/10))
  let heartComp ← vMul hrFactor (.num (3/10))
  let envComp ← vMul eFactor (.num (2/10))
  let cs0 ← vAdd normalized heartComp
  let composite ← vAdd cs0 envComp
  pure (normalized, heartComp, envComp, composite)

/-- The roundings of step 5 (source lines 264-267). -/
def cmRound (normalized heartComp envComp composite : Value) :
    Option (Value × Value × Value × Value) := do
  let naR ← vRound2 normalized
  let hcR ← vRound2 heartComp
  let ecR ← vRound2 envComp
  let csR ← vRound2 composite
  pure (naR, hcR, ecR, csR)

/-- `HealthMonitorAI.calculate_metrics` (source lines 201-282) on a dynamic
record; `none` is an uncaught exception (`KeyError`/`TypeError`/...).
Split into the helper steps above only to keep elaboration tractable; the
sequence of operations and dict reads is that of the source. -/
def calculate_metricsV (user_data : Record) : Option MetricsV := do
  let pa ← cmPredicted user_data
  let cats ← cmCategories user_data
  let hrFactor ← heart_rate_factorsV cats.1
  let eFactor ← env_factorsV cats.2.1
  let comps ← cmComponents pa.1 hrFactor eFactor
  let rounded ← cmRound comps.1 comps.2.1 comps.2.2.1 comps.2.2.2
  let geThreshold ← vLe (.num (75/100)) comps.2.2.2
  let recStatus :=
    if geThreshold && (cats.1 == "Optimal") && (cats.2.2 == "Ideal Temperature") then
      ("Continue current fitness plan", "Optimal")
    else ("Adjust fitness plan", "Needs Adjustment")
  pure { input_data := user_data, predicted_activity := pa.2,
         heart_rate_category := cats.1, environmental_quality := cats.2.1,
         temperature_impact := cats.2.2, normalized_activity := rounded.1,
         heart_component := rounded.2.1, env_component := rounded.2.2.1,
         composite_fitness_score := rounded.2.2.2, recommendation := recStatus.1,
         status := recStatus.2 }

/-- Python `str(x)` as used for report interpolation; display only (exact
float formatting is not modelled, no claim depends on the digits). -/
def pyStrV : Value → String
  | .str s => s
  | .int n => toString n
  | .num q => toString q.num ++ "/" ++ toString q.den

/-- `HealthMonitorAI.generate_report` (source lines 284-366).  Faithful in
which dict keys it reads (all six required fields of `input_data` and the
two factor tables keyed by the computed categories); the literal report
text is abridged (LaTeX walkthrough lines shortened), which no claim
inspects.  `none` is a `KeyError`. -/
def generate_reportV (metrics : MetricsV) : Option String := do
  let user_data := metrics.input_data
  let uid ← lookupField user_data "user_id"
  let steps ← lookupField user_data "current_steps"
  let hr ← lookupField user_data "heart_rate"
  let temp ← lookupField user_data "ambient_temperature"
  let env ← lookupField user_data "environmental_index"
  let intensity ← lookupField user_data "activity_intensity_factor"
  let heartFactorValue ← heart_rate_factorsV metrics.heart_rate_category
  let envFactorValue ← env_factorsV metrics.environmental_quality
  pure ("# Health Monitoring Summary\n\n**User ID:** " ++ pyStrV uid ++ "\n\n---\n\n" ++
    "## Input Data:\n" ++
    "- user_id: " ++ pyStrV uid ++ "\n" ++
    "- current_steps: " ++ pyStrV steps ++ "\n" ++
    "- heart_rate: " ++ pyStrV hr ++ "\n" ++
    "- ambient_temperature: " ++ pyStrV temp ++ "\n" ++
    "- environmental_index: " ++ pyStrV env ++ "\n" ++
    "- activity_intensity_factor: " ++ pyStrV intensity ++ "\n" ++
    "\n---\n\n## Detailed Calculations:\n\n" ++
    "1. Predicted Activity Calculation:\n - Calculated Value: **" ++
      pyStrV metrics.predicted_activity ++ " steps**\n\n" ++
    "2. Heart Rate Category:\n - Result: **" ++
      metrics.heart_rate_category ++ "**\n\n" ++
    "3. Environmental Quality Category:\n - Result: **" ++
      metrics.environmental_quality ++ "**\n\n" ++
    "4. Ambient Temperature Impact:\n - Result: **" ++
      metrics.temperature_impact ++ "**\n\n" ++
    "5. Composite Fitness Score Calculation:\n" ++
    " - Heart Rate Factor: " ++ pyStrV heartFactorValue ++ "\n" ++
    " - Environmental Factor: " ++ pyStrV envFactorValue ++ "\n" ++
    " - Calculated Value: **" ++ pyStrV metrics.composite_fitness_score ++ "**\n\n" ++
    "---\n\n## Final Recommendation:\n\n- Recommendation: **" ++
      metrics.recommendation ++ "**\n- Status: **" ++ metrics.status ++ "**\n")

/-- `HealthMonitorAI.process_data` (source lines 368-398); `none` is an
uncaught exception escaping the per-record loop. -/
def process_dataV (jsonParse : String → Option (List Record)) (data_str : String) :
    Option String :=
  let data := parse_input_data jsonParse data_str
  if data = [] then
    some "ERROR: Invalid data format. Please provide data in CSV or JSON format."
  else
    let v := validate_data data
    if v.1 = false then some v.2.1
    else do
      let results ← data.mapM (fun user_data => do
        let metrics ← calculate_metricsV user_data
        generate_reportV metrics)
      some ("\n\n" ++ String.intercalate "\n\n---\n\n" results)

/-!
### Helper lemmas about validation
-/

/-- The conjunction of per-field checks that `validate_data` enforces:
`user_id` a `str` instance, the two integer fields `int()`-convertible with
positive converted value, the three float fields `float()`-convertible with
their range bounds. -/
def validChecks (r : Record) : Prop :=
  (∃ s, lookupField r "user_id" = some (Value.str s)) ∧
  (∃ v n, lookupField r "current_steps" = some v ∧ pyInt v = some n ∧ 0 < n) ∧
  (∃ v n, lookupField r "heart_rate" = some v ∧ pyInt v = some n ∧ 0 < n) ∧
  (∃ v q, lookupField r "ambient_temperature" = some v ∧ pyFloat v = some q) ∧
  (∃ v q, lookupField r "environmental_index" = some v ∧ pyFloat v = some q ∧
    0 ≤ q ∧ q ≤ 100) ∧
  (∃ v q, lookupField r "activity_intensity_factor" = some v ∧ pyFloat v = some q ∧
    0 < q)

theorem userIdInvalid_eq_false_iff (r : Record) :
    userIdInvalid r = false ↔ ∃ s, lookupField r "user_id" = some (Value.str s) := by
  cases h : lookupField r "user_id" with
  | none => simp [userIdInvalid, h]
  | some v => cases v <;> simp [userIdInvalid, h]

theorem posIntFieldInvalid_eq_false_iff (r : Record) (f : String) :
    posIntFieldInvalid r f = false ↔
      ∃ v n, lookupField r f = some v ∧ pyInt v = some n ∧ 0 < n := by
  cases h : lookupField r f with
  | none => simp [posIntFieldInvalid, h]
  | some v =>
    cases hi : pyInt v with
    | none => simp [posIntFieldInvalid, h, hi]
    | some n => simp [posIntFieldInvalid, h, hi, decide_eq_false_iff_not, not_le]

theorem tempFieldInvalid_eq_false_iff (r : Record) :
    tempFieldInvalid r = false ↔
      ∃ v q, lookupField r "ambient_temperature" = some v ∧ pyFloat v = some q := by
  cases h : lookupField r "ambient_temperature" with
  | none => simp [tempFieldInvalid, h]
  | some v =>
    cases hq : pyFloat v with
    | none => simp [tempFieldInvalid, h, hq]
    | some q => simp [tempFieldInvalid, h, hq]

theorem envFieldInvalid_eq_false_iff (r : Record) :
    envFieldInvalid r = false ↔
      ∃ v q, lookupField r "environmental_index" = some v ∧ pyFloat v = some q ∧
        0 ≤ q ∧ q ≤ 100 := by
  cases h : lookupField r "environmental_index" with
  | none => simp [envFieldInvalid, h]
  | some v =>
    cases hq : pyFloat v with
    | none => simp [envFieldInvalid, h, hq]
    | some q =>
      simp [envFieldInvalid, h, hq, decide_eq_false_iff_not, not_lt, and_comm]

theorem intensityFieldInvalid_eq_false_iff (r : Record) :
    intensityFieldInvalid r = false ↔
      ∃ v q, lookupField r "activity_intensity_factor" = some v ∧ pyFloat v = some q ∧
        0 < q := by
  cases h : lookupField r "activity_intensity_factor" with
  | none => simp [intensityFieldInvalid, h]
  | some v =>
    cases hq : pyFloat v with
    | none => simp [intensityFieldInvalid, h, hq]
    | some q => simp [intensityFieldInvalid, h, hq, decide_eq_false_iff_not, not_le]

theorem ite_singleton_eq_nil (b : Bool) (s : String) :
    ((if b then [s] else []) = []) ↔ b = false := by
  cases b <;> simp

theorem invalidFields_eq_nil_iff (r : Record) : invalidFields r = [] ↔ validChecks r := by
  simp only [invalidFields, validChecks, List.append_eq_nil, ite_singleton_eq_nil,
    userIdInvalid_eq_false_iff, posIntFieldInvalid_eq_false_iff,
    tempFieldInvalid_eq_false_iff, envFieldInvalid_eq_false_iff,
    intensityFieldInvalid_eq_false_iff, and_assoc]

theorem missingFields_eq_nil_iff (r : Record) :
    missingFields r = [] ↔ ∀ f ∈ required_fields, lookupField r f ≠ none := by
  simp [missingFields, List.filter_eq_nil_iff, Option.isNone_iff_eq_none]

theorem recordErrors_eq_nil_iff (row : Nat) (r : Record) :
    recordErrors row r = [] ↔ validChecks r := by
  constructor
  · intro h
    by_cases h1 : missingFields r = []
    · by_cases h2 : invalidFields r = []
      · exact (invalidFields_eq_nil_iff r).mp h2
      · simp [recordErrors, h1, h2] at h
    · simp [recordErrors, h1] at h
  · intro hc
    have h2 : invalidFields r = [] := (invalidFields_eq_nil_iff r).mpr hc
    have h1 : missingFields r = [] := by
      rw [missingFields_eq_nil_iff]
      intro f hf
      obtain ⟨⟨s, hs⟩, ⟨v1, n1, hv1, _⟩, ⟨v2, n2, hv2, _⟩, ⟨v3, q3, hv3, _⟩,
        ⟨v4, q4, hv4, _⟩, ⟨v5, q5, hv5, _⟩⟩ := hc
      simp only [required_fields, List.mem_cons, List.not_mem_nil, or_false] at hf
      rcases hf with rfl | rfl | rfl | rfl | rfl | rfl
      · simp [hs]
      · simp [hv1]
      · simp [hv2]
      · simp [hv3]
      · simp [hv4]
      · simp [hv5]
    simp [recordErrors, h1, h2]

theorem collectErrors_eq_nil_iff (data : List Record) :
    ∀ start, collectErrors start data = [] ↔ ∀ r ∈ data, validChecks r := by
  induction data with
  | nil => intro start; simp [collectErrors]
  | cons r rest ih =>
    intro start
    simp [collectErrors, recordErrors_eq_nil_iff, ih (start + 1)]

theorem mem_collectErrors (data : List Record) :
    ∀ (start i : Nat) (hi : i < data.length) (e : String),
      e ∈ recordErrors (start + i) (data.get ⟨i, hi⟩) → e ∈ collectErrors start data := by
  induction data with
  | nil =>
    intro start i hi
    exact absurd hi (by simp)
  | cons r rest ih =>
    intro start i hi e he
    cases i with
    | zero =>
      exact List.mem_append_left _ (by simpa using he)
    | succ j =>
      have hj : j < rest.length := Nat.lt_of_succ_lt_succ (by simpa using hi)
      refine List.mem_append_right _ (ih (start + 1) j hj e ?_)
      rw [show start + 1 + j = start + (j + 1) from by omega]
      exact he

theorem validate_data_eq (data : List Record) (h : data ≠ []) :
    validate_data data =
      ((collectErrors 1 data).isEmpty,
        validationReport ⟨data.length, fieldsCheck data, collectErrors 1 data⟩,
        ⟨data.length, fieldsCheck data, collectErrors 1 data⟩) := by
  have hl : ¬(data.length = 0) := by simpa [List.length_eq_zero] using h
  simp [validate_data, hl]

theorem join_cons (s : String) (l : List String) :
    String.join (s :: l) = s ++ String.join l := by
  apply String.ext
  simp [String.join_eq]

theorem mem_join_dash (e : String) : ∀ (l : List String), e ∈ l →
    ∃ p q, String.join (l.map fun x => "- " ++ x ++ "\n") =
      p ++ ("- " ++ e ++ "\n") ++ q := by
  intro l
  induction l with
  | nil => intro h; exact absurd h (List.not_mem_nil e)
  | cons x xs ih =>
    intro h
    rcases List.mem_cons.mp h with rfl | hx
    · refine ⟨"", String.join (xs.map fun y => "- " ++ y ++ "\n"), ?_⟩
      rw [List.map_cons, join_cons]
      simp [String.append_assoc]
    · obtain ⟨p, q, hp⟩ := ih hx
      refine ⟨("- " ++ x ++ "\n") ++ p, q, ?_⟩
      rw [List.map_cons, join_cons, hp]
      simp [String.append_assoc]

theorem error_in_report (vr : ValidationResults) (e : String) (he : e ∈ vr.errors) :
    ∃ p q, validationReport vr = p ++ ("- " ++ e ++ "\n") ++ q := by
  obtain ⟨p, q, hp⟩ := mem_join_dash e vr.errors he
  have hne : vr.errors ≠ [] := fun h => by simp [h] at he
  refine ⟨reportHeader vr ++ p, q, ?_⟩
  rw [validationReport, if_neg hne, hp]
  simp [String.append_assoc]

/-!
### Claims C4, C5, C6, C7, C10
-/

/-- The spec's Typed User Record as a dynamic record: all six fields present
with their enforced types and ranges. -/
def wellTypedRecord (r : Record) : Prop :=
  (∃ s, lookupField r "user_id" = some (Value.str s)) ∧
  (∃ n : Int, lookupField r "current_steps" = some (Value.int n) ∧ 0 < n) ∧
  (∃ n : Int, lookupField r "heart_rate" = some (Value.int n) ∧ 0 < n) ∧
  (∃ q : ℚ, lookupField r "ambient_temperature" = some (Value.num q)) ∧
  (∃ q : ℚ, lookupField r "environmental_index" = some (Value.num q) ∧
    0 ≤ q ∧ q ≤ 100) ∧
  (∃ q : ℚ, lookupField r "activity_intensity_factor" = some (Value.num q) ∧ 0 < q)

theorem wellTyped_validChecks (r : Record) (h : wellTypedRecord r) : validChecks r := by
  obtain ⟨⟨s, hs⟩, ⟨n1, h1, hn1⟩, ⟨n2, h2, hn2⟩, ⟨q3, h3⟩, ⟨q4, h4, hq4a, hq4b⟩,
    ⟨q5, h5, hq5⟩⟩ := h
  exact ⟨⟨s, hs⟩, ⟨_, n1, h1, rfl, hn1⟩, ⟨_, n2, h2, rfl, hn2⟩, ⟨_, q3, h3, rfl⟩,
    ⟨_, q4, h4, rfl, hq4a, hq4b⟩, ⟨_, q5, h5, rfl, hq5⟩⟩

/-- A record that passes validation (the `int("5000")` coercion check
succeeds) but on which `calculate_metrics` raises: `"5000" * 1.0` is a
`TypeError` in Python.  Reachable through the JSON input path, where parsed
values are not coerced. -/
def badRecord : Record :=
  [("user_id", Value.str "U1"), ("current_steps", Value.str "5000"),
   ("heart_rate", Value.int 70), ("ambient_temperature", Value.num 20),
   ("environmental_index", Value.num 80), ("activity_intensity_factor", Value.num 1)]

/-- Claim C4 (refuted; code bug): the batch `[badRecord]` passes
`validate_data`, yet `calculate_metrics` raises a `TypeError` on it
(`"5000" * 1.0`), contradicting the claim that the Metrics Engine cannot
fail on validator-passed input. -/
theorem claim_C4 :
    (validate_data [badRecord]).1 = true ∧ calculate_metricsV badRecord = none := by
  constructor
  · decide
  · decide

/-- Claim C5: whenever the parsed batch is non-empty and fails validation,
`process_data` returns exactly the validation report (no metrics, no
per-user report). -/
theorem claim_C5 (jp : String → Option (List Record)) (s : String)
    (h1 : parse_input_data jp s ≠ [])
    (h2 : (validate_data (parse_input_data jp s)).1 = false) :
    process_dataV jp s = some ((validate_data (parse_input_data jp s)).2.1) := by
  simp [process_dataV, h1, h2]

/-- A JSON-parser stand-in that always fails (models inputs whose JSON
branch is not taken or raises). -/
def jsonParseNone : String → Option (List Record) := fun _ => none

/-- Witness input for C5: a two-column CSV whose only record is missing all
required fields, so validation fails. -/
def csvWitnessInput : String := "a,b\nc,d"

theorem claim_C5_witness :
    parse_input_data jsonParseNone csvWitnessInput ≠ [] ∧
    (validate_data (parse_input_data jsonParseNone csvWitnessInput)).1 = false ∧
    process_dataV jsonParseNone csvWitnessInput =
      some ((validate_data (parse_input_data jsonParseNone csvWitnessInput)).2.1) :=
  ⟨by decide, by decide,
    claim_C5 jsonParseNone csvWitnessInput (by decide) (by decide)⟩

/-- Claim C6: a record missing required fields makes validation fail, puts
into the error list (and the report text) exactly one message naming exactly
that record's absent fields with its 1-based row number, and that record
contributes nothing else (its type/range checks are skipped). -/
theorem claim_C6 (data : List Record) (i : Nat) (hi : i < data.length)
    (hmiss : missingFields (data.get ⟨i, hi⟩) ≠ []) :
    (validate_data data).1 = false ∧
    missingMsg (missingFields (data.get ⟨i, hi⟩)) (i + 1) ∈
      (validate_data data).2.2.errors ∧
    (∃ p q, (validate_data data).2.1 =
      p ++ ("- " ++ missingMsg (missingFields (data.get ⟨i, hi⟩)) (i + 1) ++ "\n") ++ q) ∧
    recordErrors (i + 1) (data.get ⟨i, hi⟩) =
      [missingMsg (missingFields (data.get ⟨i, hi⟩)) (i + 1)] ∧
    missingFields (data.get ⟨i, hi⟩) =
      required_fields.filter (fun f => (lookupField (data.get ⟨i, hi⟩) f).isNone) := by
  have hne : data ≠ [] := by
    intro h
    subst h
    exact absurd hi (by simp)
  have hrec : recordErrors (i + 1) (data.get ⟨i, hi⟩) =
      [missingMsg (missingFields (data.get ⟨i, hi⟩)) (i + 1)] := by
    unfold recordErrors
    rw [if_pos hmiss]
  have hmem : missingMsg (missingFields (data.get ⟨i, hi⟩)) (i + 1) ∈
      collectErrors 1 data := by
    apply mem_collectErrors data 1 i hi
    rw [Nat.add_comm 1 i, hrec]
    exact List.mem_singleton_self _
  have hnonempty : collectErrors 1 data ≠ [] := fun h => by simp [h] at hmem
  rw [validate_data_eq data hne]
  refine ⟨?_, hmem, ?_, hrec, rfl⟩
  · cases hcol : collectErrors 1 data with
    | nil => exact absurd hcol hnonempty
    | cons a l => simp [hcol]
  · exact error_in_report _ _ hmem

/-- Witness input for C6: a record with only `user_id`. -/
def rec6 : Record := [("user_id", Value.str "U1")]

/-- Witness batch for C6. -/
def data6 : List Record := [rec6]

theorem claim_C6_witness :
    missingFields rec6 ≠ [] ∧
    (validate_data data6).1 = false ∧
    missingMsg (missingFields rec6) 1 ∈ (validate_data data6).2.2.errors :=
  ⟨by decide, (claim_C6 data6 0 (by decide) (by decide)).1,
    (claim_C6 data6 0 (by decide) (by decide)).2.1⟩

/-- Claim C7: a non-empty batch of records that each carry all six fields
with the enforced types and ranges passes validation with zero error
strings. -/
theorem claim_C7 (data : List Record) (hne : data ≠ [])
    (h : ∀ r ∈ data, wellTypedRecord r) :
    (validate_data data).1 = true ∧ (validate_data data).2.2.errors = [] := by
  have herr : collectErrors 1 data = [] :=
    (collectErrors_eq_nil_iff data 1).mpr fun r hr => wellTyped_validChecks r (h r hr)
  rw [validate_data_eq data hne]
  simp [herr]

/-- A well-typed record used as witness input for C7. -/
def sampleRecordV : Record :=
  [("user_id", Value.str "U1"), ("current_steps", Value.int 10000),
   ("heart_rate", Value.int 70), ("ambient_temperature", Value.num 20),
   ("environmental_index", Value.num 80), ("activity_intensity_factor", Value.num 1)]

theorem claim_C7_witness :
    [sampleRecordV] ≠ ([] : List Record) ∧
    (validate_data [sampleRecordV]).1 = true ∧
    (validate_data [sampleRecordV]).2.2.errors = [] := by
  have hw : ∀ r ∈ [sampleRecordV], wellTypedRecord r := by
    intro r hr
    rw [List.mem_singleton] at hr
    subst hr
    exact ⟨⟨"U1", rfl⟩, ⟨10000, rfl, by decide⟩, ⟨70, rfl, by decide⟩, ⟨20, rfl⟩,
      ⟨80, rfl, by decide, by decide⟩, ⟨1, rfl, by decide⟩⟩
  exact ⟨by decide, (claim_C7 [sampleRecordV] (by decide) hw).1,
    (claim_C7 [sampleRecordV] (by decide) hw).2⟩

/-- A record exercising the coercion-style checks of C10: empty-string
`user_id`, string `"5000"` for `current_steps`, non-integral float 80.7 for
`heart_rate`. -/
def looseRecord : Record :=
  [("user_id", Value.str ""), ("current_steps", Value.str "5000"),
   ("heart_rate", Value.num (mkRat 807 10)), ("ambient_temperature", Value.num 20),
   ("environmental_index", Value.num 80), ("activity_intensity_factor", Value.num 1)]

/-- Claim C10: for records with all six fields present, the validator's
acceptance is exactly the coercion-style characterization `validChecks`
(isinstance-str on `user_id`, `int()`/`float()` convertibility plus range
bounds); in particular a numeric string for `current_steps`, the
non-integral float 80.7 for `heart_rate` (truncated to 80 only for the
range test), and an empty-string `user_id` are all accepted. -/
theorem claim_C10 :
    (∀ (row : Nat) (r : Record), (∀ f ∈ required_fields, (lookupField r f).isSome) →
      (recordErrors row r = [] ↔ validChecks r)) ∧
    pyInt (Value.num (mkRat 807 10)) = some 80 ∧
    recordErrors 1 looseRecord = [] ∧
    (validate_data [looseRecord]).1 = true := by
  refine ⟨fun row r _ => recordErrors_eq_nil_iff row r, by decide, by decide, by decide⟩

theorem claim_C10_witness :
    (∀ f ∈ required_fields, (lookupField looseRecord f).isSome) ∧
    (recordErrors 2 looseRecord = [] ↔ validChecks looseRecord) :=
  ⟨by decide, claim_C10.1 2 looseRecord (by decide)⟩

/-!
### Claim C9: rejection of unparseable input
-/

/-- Claim C9: an input that (after stripping) neither starts with a brace
nor contains a comma parses to the empty sequence, as does a brace-led
input whose JSON parse raises; and an empty parse result makes
`process_data` return the fixed invalid-format error string. -/
theorem claim_C9 :
    (∀ (jp : String → Option (List Record)) (s : String),
      strStartsWithChar '\x7b' (pyStrip s) = false →
      strContainsChar ',' (pyStrip s) = false →
      parse_input_data jp s = []) ∧
    (∀ (jp : String → Option (List Record)) (s : String),
      strStartsWithChar '\x7b' (pyStrip s) = true →
      jp (pyStrip s) = none →
      parse_input_data jp s = []) ∧
    (∀ (jp : String → Option (List Record)) (s : String),
      parse_input_data jp s = [] →
      process_dataV jp s =
        some "ERROR: Invalid data format. Please provide data in CSV or JSON format.") := by
  refine ⟨?_, ?_, ?_⟩
  · intro jp s h1 h2
    simp [parse_input_data, h1, h2]
  · intro jp s h1 h2
    simp [parse_input_data, h1, h2]
  · intro jp s h
    simp [process_dataV, h]

theorem claim_C9_witness :
    strStartsWithChar '\x7b' (pyStrip "hello") = false ∧
    strContainsChar ',' (pyStrip "hello") = false ∧
    parse_input_data jsonParseNone "hello" = [] ∧
    process_dataV jsonParseNone "hello" =
      some "ERROR: Invalid data format. Please provide data in CSV or JSON format." :=
  ⟨by decide, by decide,
    claim_C9.1 jsonParseNone "hello" (by decide) (by decide),
    claim_C9.2.2 jsonParseNone "hello"
      (claim_C9.1 jsonParseNone "hello" (by decide) (by decide))⟩

/-!
### Claim C8: header-keyed CSV parsing

The dict built for a row is keyed by the trimmed header names, so permuting
the columns (headers and row alike) yields records equal as maps — provided
the trimmed header names are distinct.  With duplicate header names Python's
dict keeps the last column, which the counterexample below exploits.
-/

/-- First-match lookup in a header/value pairing. -/
def lookupStr : List (String × String) → String → Option String
  | [], _ => none
  | p :: l, k => if p.1 = k then some p.2 else lookupStr l k

theorem lookup_map_update_ne (r : Record) (k : String) (v : Value) (k' : String)
    (hne : k' ≠ k) :
    lookupField (r.map fun p => if p.1 = k then (k, v) else p) k' = lookupField r k' := by
  induction r with
  | nil => rfl
  | cons p r ih =>
    simp only [List.map_cons]
    by_cases hp : p.1 = k
    · rw [if_pos hp]
      simp only [lookupField]
      have h1 : ¬(k = k') := fun h => hne h.symm
      have h2 : ¬(p.1 = k') := by
        intro h
        exact hne (by rw [← h, hp])
      rw [if_neg h1, if_neg h2, ih]
    · rw [if_neg hp]
      simp only [lookupField]
      by_cases hpk : p.1 = k'
      · rw [if_pos hpk, if_pos hpk]
      · rw [if_neg hpk, if_neg hpk, ih]

theorem lookup_map_update_eq (r : Record) (k : String) (v : Value)
    (h : r.any (fun p => p.1 == k) = true) :
    lookupField (r.map fun p => if p.1 = k then (k, v) else p) k = some v := by
  induction r with
  | nil => simp at h
  | cons p r ih =>
    simp only [List.map_cons]
    by_cases hp : p.1 = k
    · rw [if_pos hp]
      simp [lookupField]
    · rw [if_neg hp]
      simp only [lookupField]
      rw [if_neg hp]
      apply ih
      simp only [List.any_cons, Bool.or_eq_true] at h
      rcases h with h | h
      · exact absurd (by simpa using h) hp
      · exact h

theorem lookupField_eq_none_of_not_any (r : Record) (k : String)
    (h : ¬(r.any (fun p => p.1 == k) = true)) : lookupField r k = none := by
  induction r with
  | nil => rfl
  | cons p r ih =>
    simp only [List.any_cons, Bool.or_eq_true] at h
    push_neg at h
    simp only [lookupField]
    rw [if_neg (by simpa using h.1)]
    exact ih h.2

theorem lookup_append_single (r : Record) (k : String) (v : Value) (k' : String) :
    lookupField (r ++ [(k, v)]) k' =
      match lookupField r k' with
      | some w => some w
      | none => if k = k' then some v else none := by
  induction r with
  | nil => simp [lookupField]
  | cons p r ih =>
    simp only [List.cons_append, lookupField]
    by_cases hp : p.1 = k'
    · rw [if_pos hp, if_pos hp]
    · rw [if_neg hp, if_neg hp]
      exact ih

theorem lookupField_dictInsert (r : Record) (k : String) (v : Value) (k' : String) :
    lookupField (dictInsert r k v) k' = if k = k' then some v else lookupField r k' := by
  unfold dictInsert
  by_cases hany : r.any (fun p => p.1 == k) = true
  · rw [if_pos hany]
    by_cases hk : k = k'
    · subst hk
      rw [if_pos rfl, lookup_map_update_eq r k v hany]
    · rw [if_neg hk, lookup_map_update_ne r k v k' (fun h => hk h.symm)]
  · rw [if_neg hany, lookup_append_single]
    by_cases hk : k = k'
    · subst hk
      rw [lookupField_eq_none_of_not_any r k hany]
    · cases hlk : lookupField r k' with
      | none => simp [hk]
      | some w => simp [hk]

theorem lookupStr_append_single (l : List (String × String)) (p : String × String)
    (k : String) :
    lookupStr (l ++ [p]) k =
      match lookupStr l k with
      | some w => some w
      | none => if p.1 = k then some p.2 else none := by
  induction l with
  | nil => rfl
  | cons q l ih =>
    simp only [List.cons_append, lookupStr]
    by_cases hq : q.1 = k
    · rw [if_pos hq, if_pos hq]
    · rw [if_neg hq, if_neg hq]
      exact ih

theorem lookupField_buildFold (ps : List (String × String)) :
    ∀ (r0 : Record) (k : String),
      lookupField (ps.foldl (fun r p => dictInsert r p.1 (Value.str p.2)) r0) k =
        match lookupStr ps.reverse k with
        | some v => some (Value.str v)
        | none => lookupField r0 k := by
  induction ps with
  | nil => intro r0 k; rfl
  | cons p ps ih =>
    intro r0 k
    simp only [List.foldl_cons]
    rw [ih, List.reverse_cons, lookupStr_append_single]
    cases hl : lookupStr ps.reverse k with
    | some w => rfl
    | none =>
      simp only [lookupField_dictInsert]
      by_cases hp : p.1 = k <;> simp [hp]

theorem lookupStr_eq_filter_head (ps : List (String × String)) (k : String) :
    lookupStr ps k = ((ps.filter (fun p => p.1 == k)).head?).map Prod.snd := by
  induction ps with
  | nil => rfl
  | cons p ps ih =>
    simp only [lookupStr, List.filter_cons]
    by_cases hp : p.1 = k
    · rw [if_pos hp]
      simp [hp]
    · rw [if_neg hp]
      simp [hp, ih]

theorem filter_key_length_le_one (ps : List (String × String)) (k : String)
    (h : (ps.map Prod.fst).Nodup) : (ps.filter (fun p => p.1 == k)).length ≤ 1 := by
  induction ps with
  | nil => simp
  | cons p ps ih =>
    simp only [List.map_cons, List.nodup_cons] at h
    simp only [List.filter_cons]
    by_cases hp : p.1 = k
    · rw [if_pos (by simpa using hp)]
      have hnil : ps.filter (fun q => q.1 == k) = [] := by
        apply List.filter_eq_nil_iff.mpr
        intro q hq hbeq
        have hqk : q.1 = k := by simpa using hbeq
        exact h.1 (by rw [hp, ← hqk]; exact List.mem_map_of_mem Prod.fst hq)
      simp [hnil]
    · rw [if_neg (by simpa using hp)]
      exact ih h.2

theorem perm_eq_of_length_le_one {α : Type} {l1 l2 : List α} (h : l1.Perm l2)
    (hl : l1.length ≤ 1) : l1 = l2 := by
  cases l1 with
  | nil => exact (List.Perm.eq_nil h.symm).symm
  | cons a l =>
    cases l with
    | nil => exact (List.perm_singleton.mp h.symm).symm
    | cons b m => simp at hl

theorem lookupStr_reverse_eq (ps : List (String × String)) (k : String)
    (h : (ps.map Prod.fst).Nodup) : lookupStr ps.reverse k = lookupStr ps k := by
  rw [lookupStr_eq_filter_head, lookupStr_eq_filter_head, List.filter_reverse]
  have hle := filter_key_length_le_one ps k h
  cases hf : ps.filter (fun p => p.1 == k) with
  | nil => rfl
  | cons x xs =>
    rw [hf] at hle
    cases xs with
    | nil => rfl
    | cons y ys => simp at hle

theorem lookupStr_perm_eq (ps1 ps2 : List (String × String)) (k : String)
    (hp : ps1.Perm ps2) (h : (ps1.map Prod.fst).Nodup) :
    lookupStr ps1 k = lookupStr ps2 k := by
  rw [lookupStr_eq_filter_head, lookupStr_eq_filter_head,
    perm_eq_of_length_le_one (hp.filter (fun p => p.1 == k))
      (filter_key_length_le_one ps1 k h)]

theorem lookupField_coerceIntField_congr (r1 r2 : Record) (f : String)
    (h : ∀ k, lookupField r1 k = lookupField r2 k) :
    ∀ k, lookupField (coerceIntField r1 f) k = lookupField (coerceIntField r2 f) k := by
  intro k
  have hf : lookupField r2 f = lookupField r1 f := (h f).symm
  cases hv : lookupField r1 f with
  | none =>
    simp only [coerceIntField, hv, hf]
    exact h k
  | some v =>
    cases hi : pyInt v with
    | none =>
      simp only [coerceIntField, hv, hf, hi]
      exact h k
    | some n =>
      simp only [coerceIntField, hv, hf, hi]
      rw [lookupField_dictInsert, lookupField_dictInsert]
      by_cases hk : f = k
      · rw [if_pos hk, if_pos hk]
      · rw [if_neg hk, if_neg hk]
        exact h k

theorem lookupField_coerceFloatField_congr (r1 r2 : Record) (f : String)
    (h : ∀ k, lookupField r1 k = lookupField r2 k) :
    ∀ k, lookupField (coerceFloatField r1 f) k = lookupField (coerceFloatField r2 f) k := by
  intro k
  have hf : lookupField r2 f = lookupField r1 f := (h f).symm
  cases hv : lookupField r1 f with
  | none =>
    simp only [coerceFloatField, hv, hf]
    exact h k
  | some v =>
    cases hq : pyFloat v with
    | none =>
      simp only [coerceFloatField, hv, hf, hq]
      exact h k
    | some q =>
      simp only [coerceFloatField, hv, hf, hq]
      rw [lookupField_dictInsert, lookupField_dictInsert]
      by_cases hk : f = k
      · rw [if_pos hk, if_pos hk]
      · rw [if_neg hk, if_neg hk]
        exact h k

theorem lookupField_coerce_congr (r1 r2 : Record)
    (h : ∀ k, lookupField r1 k = lookupField r2 k) :
    ∀ k, lookupField (coerceNumericFields r1) k =
      lookupField (coerceNumericFields r2) k := by
  unfold coerceNumericFields
  simp only [List.foldl_cons, List.foldl_nil]
  exact lookupField_coerceFloatField_congr _ _ _
    (lookupField_coerceFloatField_congr _ _ _
      (lookupField_coerceFloatField_congr _ _ _
        (lookupField_coerceIntField_congr _ _ _
          (lookupField_coerceIntField_congr _ _ _ h))))

theorem parseRow_lookup_eq (h1 h2 : List String) (r1 r2 : List String)
    (hnd : (h1.map pyStrip).Nodup)
    (hl1 : r1.length = h1.length)
    (hperm : ((h1.map pyStrip).zip r1).Perm ((h2.map pyStrip).zip r2)) :
    ∀ k, lookupField (coerceNumericFields (buildRecord (h1.map pyStrip) r1)) k =
      lookupField (coerceNumericFields (buildRecord (h2.map pyStrip) r2)) k := by
  apply lookupField_coerce_congr
  intro k
  unfold buildRecord
  rw [lookupField_buildFold, lookupField_buildFold]
  have hkeys1 : (((h1.map pyStrip).zip r1).map Prod.fst) = h1.map pyStrip := by
    apply List.map_fst_zip
    rw [List.length_map, hl1]
  have hnd1 : (((h1.map pyStrip).zip r1).map Prod.fst).Nodup := by
    rw [hkeys1]
    exact hnd
  have hnd2 : (((h2.map pyStrip).zip r2).map Prod.fst).Nodup :=
    ((hperm.map Prod.fst).nodup_iff).mp hnd1
  rw [lookupStr_reverse_eq _ _ hnd1, lookupStr_reverse_eq _ _ hnd2,
    lookupStr_perm_eq _ _ k hperm hnd1]

theorem filterMap_filter_of_none {α β : Type} (p : α → Bool) (g : α → Option β)
    (hg : ∀ a, p a = false → g a = none) :
    ∀ l : List α, List.filterMap g l = List.filterMap g (l.filter p) := by
  intro l
  induction l with
  | nil => rfl
  | cons a l ih =>
    cases hp : p a with
    | true =>
      rw [List.filter_cons_of_pos (by simp [hp])]
      simp only [List.filterMap_cons]
      rw [ih]
    | false =>
      rw [List.filter_cons_of_neg (by simp [hp])]
      simp only [List.filterMap_cons, hg a hp]
      exact ih

theorem parse_rows_cons (header : List String) (rows : List (List String)) :
    parse_rows (header :: rows) =
      rows.filterMap (fun row =>
        if row.length = (header.map pyStrip).length then
          some (coerceNumericFields (buildRecord (header.map pyStrip) row))
        else none) := by
  cases rows with
  | nil => rfl
  | cons r rest => rfl

/-- Claim C8 (amended: the trimmed header names must be distinct):
(1) permuting the columns of a delimited input — headers and each row alike —
yields, row for row, records that agree as key-value mappings; (2) rows whose
field count differs from the header's are silently dropped, producing no
record and no error. -/
theorem claim_C8 :
    (∀ (h1 h2 : List String) (rows1 rows2 : List (List String)),
      (h1.map pyStrip).Nodup →
      List.Forall₂ (fun r1 r2 => r1.length = h1.length ∧ r2.length = h2.length ∧
        ((h1.map pyStrip).zip r1).Perm ((h2.map pyStrip).zip r2)) rows1 rows2 →
      List.Forall₂ (fun a b => ∀ k, lookupField a k = lookupField b k)
        (parse_rows (h1 :: rows1)) (parse_rows (h2 :: rows2))) ∧
    (∀ (header : List String) (rows : List (List String)),
      parse_rows (header :: rows) =
        parse_rows (header :: rows.filter
          (fun row => row.length = (header.map pyStrip).length))) := by
  constructor
  · intro h1 h2 rows1 rows2 hnd hf
    rw [parse_rows_cons, parse_rows_cons]
    induction hf with
    | nil => exact List.Forall₂.nil
    | cons hR htail ih =>
      obtain ⟨hl1, hl2, hperm⟩ := hR
      simp only [List.filterMap_cons]
      rw [if_pos (by rw [List.length_map]; exact hl1),
        if_pos (by rw [List.length_map]; exact hl2)]
      exact List.Forall₂.cons (parseRow_lookup_eq h1 h2 _ _ hnd hl1 hperm) ih
  · intro header rows
    rw [parse_rows_cons, parse_rows_cons]
    exact filterMap_filter_of_none _ _
      (fun a ha => if_neg (of_decide_eq_false ha)) rows

/-- Counterexample to C8 as stated: with the duplicated header name `a`,
swapping the two columns (header and row alike) changes the parsed record —
Python's dict keeps the last column for a repeated key. -/
theorem claim_C8_counterexample :
    ((["a", "a"].map pyStrip).zip ["1", "2"]).Perm
      ((["a", "a"].map pyStrip).zip ["2", "1"]) ∧
    (["1", "2"] : List String).length = (["a", "a"] : List String).length ∧
    (parse_rows [["a", "a"], ["1", "2"]]).map (fun r => lookupField r "a") ≠
      (parse_rows [["a", "a"], ["2", "1"]]).map (fun r => lookupField r "a") := by
  refine ⟨by decide, rfl, by decide⟩

theorem claim_C8_witness :
    (["a", "b"].map pyStrip).Nodup ∧
    List.Forall₂ (fun r1 r2 => r1.length = (["a", "b"] : List String).length ∧
      r2.length = (["b", "a"] : List String).length ∧
      ((["a", "b"].map pyStrip).zip r1).Perm ((["b", "a"].map pyStrip).zip r2))
      [["1", "2"]] [["2", "1"]] ∧
    List.Forall₂ (fun a b => ∀ k, lookupField a k = lookupField b k)
      (parse_rows [["a", "b"], ["1", "2"]]) (parse_rows [["b", "a"], ["2", "1"]]) := by
  have hnd : (["a", "b"].map pyStrip).Nodup := by decide
  have hf : List.Forall₂ (fun r1 r2 => r1.length = (["a", "b"] : List String).length ∧
      r2.length = (["b", "a"] : List String).length ∧
      ((["a", "b"].map pyStrip).zip r1).Perm ((["b", "a"].map pyStrip).zip r2))
      [["1", "2"]] [["2", "1"]] :=
    List.Forall₂.cons ⟨by decide, by decide, by decide⟩ List.Forall₂.nil
  exact ⟨hnd, hf, claim_C8.1 ["a", "b"] ["b", "a"] [["1", "2"]] [["2", "1"]] hnd hf⟩

end HealthMonitor
